import Mathlib

/-!
libcopp: coroutine context base

A shallow embedding of `include/libcopp/coroutine/coroutine_context_base.h`
(and of the machine-context record of `fcontext/detail/fcontext_arm.hpp`),
followed by the properties of the coroutine lifecycle layer.

Conventions of the embedding:

* A raw pointer (`void *`, the address of a runner, of a context, of a
  `void *` slot) is a natural number; `NULL` is address `0`.
* A C `int` is an `Int`.  No function embedded here does arithmetic on an
  `int`: values are only stored, loaded and compared, so no wrap-around
  can occur and none is modelled.
* A member function becomes a function of the object (`self`) that returns
  the object after the call when it writes to it.
-/

namespace copp

/-- A raw pointer value: an address, with `NULL` at address zero. -/
abbrev Ptr := Nat

/-- The null pointer constant used by the header (`UTIL_CONFIG_NULLPTR`). -/
def UTIL_CONFIG_NULLPTR : Ptr := 0

namespace fcontext

/-- `struct stack_t` of `fcontext_arm.hpp`: stack pointer and size, both
zero after construction. -/
structure stack_t where
  sp : Ptr := 0
  size : Nat := 0
deriving DecidableEq, Repr

/-- `struct fp_t` of `fcontext_arm.hpp`: sixteen 32-bit floating point
registers, zero after construction. -/
structure fp_t where
  fc_freg : List Nat := List.replicate 16 0
deriving DecidableEq, Repr

/-- `struct fcontext_t` of `fcontext_arm.hpp`: eleven 32-bit general
registers, the stack record and the floating point record. -/
structure fcontext_t where
  fc_greg : List Nat := List.replicate 11 0
  fc_stack : stack_t := {}
  fc_fp : fp_t := {}
deriving DecidableEq, Repr

end fcontext

/-- Modelled from the spec: `stack_context` is declared in
`libcopp/stack/stack_context.h`, which is not part of the sources at hand.
The stack provider contract describes a region as `{base, size}`. -/
structure stack_context where
  base : Ptr := 0
  size : Nat := 0
deriving DecidableEq, Repr

namespace detail

/-- The enumeration `coroutine_context_base::status_t::type`. -/
inductive status_t where
  | EN_CRS_INVALID
  | EN_CRS_READY
  | EN_CRS_RUNNING
  | EN_CRS_FINISHED
  | EN_CRS_EXITED
deriving DecidableEq, Repr

/-- The integer value of an enumerator: `EN_CRS_INVALID = 0` is written in
the header, and each following enumerator of a C++ `enum` is one more than
its predecessor. -/
def status_t.toInt : status_t → Int
  | .EN_CRS_INVALID => 0
  | .EN_CRS_READY => 1
  | .EN_CRS_RUNNING => 2
  | .EN_CRS_FINISHED => 3
  | .EN_CRS_EXITED => 4

/-- The enumerators in their order of declaration. -/
def status_t.enumerators : List status_t :=
  [.EN_CRS_INVALID, .EN_CRS_READY, .EN_CRS_RUNNING, .EN_CRS_FINISHED, .EN_CRS_EXITED]

/-- The lifecycle of the specification, as the sequence of states a context
goes through: INVALID, READY, RUNNING, FINISHED, EXITED.  Two neighbours of
this list are one lifecycle step. -/
def lifecycle : List status_t :=
  [.EN_CRS_INVALID, .EN_CRS_READY, .EN_CRS_RUNNING, .EN_CRS_FINISHED, .EN_CRS_EXITED]

/-- The data members of `class coroutine_context_base`.  `status_` is an
`atomic_int_type<int>`: an `int` cell that holds the value of a `status_t`
enumerator. -/
structure coroutine_context_base where
  runner_ret_code_ : Int
  runner_ : Ptr
  priv_data_ : Ptr
  status_ : Int
  caller_ : fcontext.fcontext_t
  callee_ : fcontext.fcontext_t
  callee_stack_ : stack_context
deriving DecidableEq, Repr

/-- The private record `coroutine_context_base::jump_src_data_t` carried
across a jump: the context jumped from, the context jumped to and the
private data of the jump. -/
structure jump_src_data_t where
  from_co : Ptr
  to_co : Ptr
  priv_data : Ptr
deriving DecidableEq, Repr

/-- What calling a runner does.  `coroutine_runnable_base` is declared in a
header that is not at hand; only its call operator `int operator()(void *)`
is used.  The call `(*runner)(priv_data)` made while the context is in state
`c` returns an `int` and may, through the public interface, leave the
context in another state: `invoke runner priv_data c` is that pair. -/
abbrev runner_call := Ptr → Ptr → coroutine_context_base → Int × coroutine_context_base

namespace coroutine_context_base

/-- The member `run_and_recv_retcode`: return at once when the runner is
null, else call the runner with `priv_data` and store what it returns in
`runner_ret_code_`. -/
def run_and_recv_retcode (invoke : runner_call) (self : coroutine_context_base)
    (priv_data : Ptr) : coroutine_context_base :=
  if UTIL_CONFIG_NULLPTR = self.runner_ then self
  else
    let called := invoke self.runner_ priv_data self
    { called.2 with runner_ret_code_ := called.1 }

/-- The member `get_runner`. -/
def get_runner (self : coroutine_context_base) : Ptr := self.runner_

/-- The member `get_ret_code`. -/
def get_ret_code (self : coroutine_context_base) : Int := self.runner_ret_code_

/-- The member `set_private_data`. -/
def set_private_data (self : coroutine_context_base) (ptr : Ptr) : coroutine_context_base :=
  { self with priv_data_ := ptr }

/-- The member `get_private_data`. -/
def get_private_data (self : coroutine_context_base) : Ptr := self.priv_data_

end coroutine_context_base

/-!
The lifecycle operations

`is_finished`, `start`, `yield`, `resume`, the trampoline
`coroutine_context_callback` and the free functions of `this_coroutine` are
declared in the header and defined in a translation unit that is not at
hand.  What they do and what they return follows the specification: `start`
and `resume` fail with an error kind or return "the payload delivered back",
and `yield` "performs ContextSwitch(caller_ctx, outData)".  The header adds
that the parameter of `yield` is a `void **` that "if not NULL, will get the
value from start(priv_data) or resume(priv_data)"; it declares the three
functions with an `int` result, "COPP_EC_SUCCESS or error code", which is the
error kind of the specification.
-/

/-- Modelled from the spec: the error kinds of the lifecycle operations
(section 7).  The header that defines the integer codes is missing; the
header at hand names only `COPP_EC_SUCCESS`. -/
inductive copp_error_code where
  | COPP_EC_SUCCESS
  | AlreadyCreated
  | InvalidArgument
  | StackAllocationFailed
  | NotReady
  | AlreadyStarted
  | NotRunning
  | NotResumable
deriving DecidableEq, Repr

/-- Modelled from the spec: is_finished, whose body is missing; "true iff
status ∈ {FINISHED, EXITED}", an atomic read.  The second component is the
context after the call. -/
def coroutine_context_base.is_finished (self : coroutine_context_base) :
    Bool × coroutine_context_base :=
  (decide (self.status_ = status_t.EN_CRS_FINISHED.toInt ∨
      self.status_ = status_t.EN_CRS_EXITED.toInt), self)

/-- Modelled from the spec: the Runnable capability, whose header is missing
(section 4.3): what a runner does on the callee stack once invoked.  It
either returns its result code, or calls `yield(priv_data)` on its own
context and goes on, when that call returns, with the error code the call
returned and the memory it then finds. -/
inductive runnable_body where
  | returns (code : Int) : runnable_body
  | yields (priv_data : Ptr) (next : copp_error_code → (Ptr → Ptr) → runnable_body) :
      runnable_body

/-- Modelled from the spec: the callee MachineContext, supplied by the
missing context-switch primitive, as the place a switch into it continues
at: nothing before `create`, the trampoline entry, a yield point (inside a
call `yield(priv_data)`, with the rest of the runner), or retired after the
final switch of the trampoline. -/
inductive callee_point where
  | not_built : callee_point
  | at_entry : callee_point
  | at_yield (priv_data : Ptr) (next : copp_error_code → (Ptr → Ptr) → runnable_body) :
      callee_point
  | retired : callee_point

/-- Modelled from the spec: what one OS thread sees, the context-switch
primitive and the registry being missing from the sources: the coroutine
contexts by address, where each callee context continues, the thread-local
registry of active contexts (top first), the `void *` slots of memory by
address, and the number of context switches performed so far. -/
structure thread_state where
  contexts : Ptr → coroutine_context_base
  callee_at : Ptr → callee_point
  registry : List Ptr
  memory : Ptr → Ptr
  context_switches : Nat

/-- Store a context at its address. -/
def thread_state.set_context (w : thread_state) (co : Ptr) (c : coroutine_context_base) :
    thread_state :=
  { w with contexts := Function.update w.contexts co c }

/-- Modelled from the spec: the registry, missing from the sources, is "a
thread-local stack (LIFO) of active-context identifiers": push. -/
def thread_state.push_registry (w : thread_state) (co : Ptr) : thread_state :=
  { w with registry := co :: w.registry }

/-- Modelled from the spec: the registry, missing from the sources, is "a
thread-local stack (LIFO) of active-context identifiers": pop. -/
def thread_state.pop_registry (w : thread_state) : thread_state :=
  { w with registry := w.registry.tail }

/-- Modelled from the spec: one use of the missing ContextSwitch primitive,
counted. -/
def thread_state.context_switch (w : thread_state) : thread_state :=
  { w with context_switches := w.context_switches + 1 }

/-- Modelled from the spec: a compare-and-swap on the missing
`atomic_int_type<int>`: whether the cell held `expected`, and the cell
afterwards. -/
def compare_exchange_strong (cell expected desired : Int) : Bool × Int :=
  if cell = expected then (true, desired) else (false, cell)

/-- Modelled from the spec: what `start` and `resume`, whose bodies are
missing, return: they fail with an error kind, or return "the payload
delivered back".  The callee delivers the `outData` of its `yield`
("ContextSwitch(caller_ctx, outData)") or, from the trampoline, the result of
the runner ("one final ContextSwitch back to the caller carrying the
result"). -/
inductive switch_result where
  | failed (ec : copp_error_code) : switch_result
  | payload (outData : Ptr) : switch_result
  | result (code : Int) : switch_result
deriving DecidableEq, Repr

/-- What a call of `yield` comes to for the code that makes it: it returned
at once with an error code, or the switch to the caller was performed,
carrying `outData`, and the calling code is suspended inside the call. -/
inductive yield_outcome where
  | failed (ec : copp_error_code) (w : thread_state) : yield_outcome
  | switched (outData : Ptr) (w : thread_state) : yield_outcome

/-- The thread state a call of `yield` leaves. -/
def yield_outcome.state : yield_outcome → thread_state
  | .failed _ w => w
  | .switched _ w => w

end detail

namespace this_coroutine

/-- Modelled from the spec: this_coroutine::get_coroutine, whose body is
missing: peek the top of the registry; by the header, "if not in coroutine,
return NULL". -/
def get_coroutine (w : detail.thread_state) : Ptr :=
  w.registry.headD UTIL_CONFIG_NULLPTR

end this_coroutine

namespace detail

/-- Modelled from the spec: coroutine_context_base::yield up to the switch,
its body being missing: "requires the registry's current entry to be this
context; performs ContextSwitch(caller_ctx, outData)"; "fails with
NotRunning if this context is not the active one". -/
def coroutine_context_base.yield (w : thread_state) (self : Ptr) (priv_data : Ptr) :
    yield_outcome :=
  if w.registry.head? = some self then .switched priv_data w.context_switch
  else .failed .NotRunning w

/-- Modelled from the spec: the end of coroutine_context_base::yield, after
the next `start` or `resume` has switched back into it: by the header the
slot `priv_data` points to, "if not NULL, will get the value from
start(priv_data) or resume(priv_data)", which the jump carries in
`jump_src_data_t::priv_data`. -/
def coroutine_context_base.yield_return (w : thread_state) (priv_data : Ptr)
    (jump : jump_src_data_t) : thread_state :=
  if priv_data = UTIL_CONFIG_NULLPTR then w
  else { w with memory := Function.update w.memory priv_data jump.priv_data }

/-- Modelled from the spec: the end of the trampoline, its body being
missing: "CASes status to FINISHED, then performs one final ContextSwitch
back to the caller carrying the result"; the callee stack is retired from
then on.  The result is the return code stored in the context. -/
def coroutine_context_base.finish (w : thread_state) (self : Ptr) :
    switch_result × thread_state :=
  let c := w.contexts self
  let cas := compare_exchange_strong c.status_ status_t.EN_CRS_RUNNING.toInt
    status_t.EN_CRS_FINISHED.toInt
  let w1 := w.set_context self { c with status_ := cas.2 }
  (.result c.runner_ret_code_,
    { w1.context_switch with callee_at := Function.update w1.callee_at self .retired })

/-- Modelled from the spec: the runner running on the callee stack of
`self` until it switches away, the switch primitive being missing.  When it
returns, its result is stored as `run_and_recv_retcode` does and the
trampoline ends; when it calls `yield` and the switch is performed, the
callee is parked at that yield point and the caller is delivered what the
switch carries; when `yield` fails, the runner goes on with the error code.
The first component is what the switch back delivers to the caller. -/
def coroutine_context_base.run_callee (self : Ptr) :
    runnable_body → thread_state → switch_result × thread_state
  | .returns code, w =>
      let c := w.contexts self
      coroutine_context_base.finish (w.set_context self { c with runner_ret_code_ := code }) self
  | .yields priv_data next, w =>
      match coroutine_context_base.yield w self priv_data with
      | .failed ec w1 => coroutine_context_base.run_callee self (next ec w1.memory) w1
      | .switched outData w1 =>
          (.payload outData,
            { w1 with
              callee_at := Function.update w1.callee_at self (.at_yield priv_data next) })

/-- Modelled from the spec: the trampoline coroutine_context_callback, its
body being missing: "receives the switch payload, ..., invokes
runner.invoke(privateData), captures the integer result, CASes status to
FINISHED, then performs one final ContextSwitch back to the caller carrying
the result".  The invocation is that of `run_and_recv_retcode`: none when
the runner is null.  `runners` gives, for a runner and the payload it is
invoked with, what it does. -/
def coroutine_context_base.coroutine_context_callback (runners : Ptr → Ptr → runnable_body)
    (w : thread_state) (src_ctx : jump_src_data_t) : switch_result × thread_state :=
  let self := src_ctx.to_co
  let c := w.contexts self
  if UTIL_CONFIG_NULLPTR = c.runner_ then coroutine_context_base.finish w self
  else coroutine_context_base.run_callee self (runners c.runner_ src_ctx.priv_data) w

/-- Modelled from the spec: coroutine_context_base::start, its body being
missing: "requires status==READY; CAS to RUNNING; pushes self onto the
registry; performs ContextSwitch(callee_ctx, privateData); blocks the
calling thread until the callee yields or finishes, then pops the registry
and returns the payload delivered back"; "fails with NotReady if status !=
READY".  The jump record names the switcher (the current coroutine, if any),
the target and the payload, after the switch contract "swap(target, payload)
-> (resumedFrom, payload)". -/
def coroutine_context_base.start (runners : Ptr → Ptr → runnable_body) (w : thread_state)
    (self : Ptr) (priv_data : Ptr) : switch_result × thread_state :=
  let c := w.contexts self
  let cas := compare_exchange_strong c.status_ status_t.EN_CRS_READY.toInt
    status_t.EN_CRS_RUNNING.toInt
  if cas.1 = false then (.failed .NotReady, w)
  else
    let jump_data : jump_src_data_t :=
      { from_co := this_coroutine.get_coroutine w, to_co := self, priv_data := priv_data }
    let w1 := w.set_context self { c with status_ := cas.2 }
    let w2 := w1.push_registry self
    let back := coroutine_context_base.coroutine_context_callback runners w2.context_switch
      jump_data
    (back.1, back.2.pop_registry)

/-- Modelled from the spec: coroutine_context_base::resume, its body being
missing: "same switch mechanics as start, legal only when status==RUNNING
and the context is parked at a prior yield point (not entry); fails with
NotResumable otherwise".  The switch continues the parked `yield`, which
ends as `yield_return` says and returns success to the runner; `resume`
returns, like `start`, the payload delivered back. -/
def coroutine_context_base.resume (w : thread_state) (self : Ptr) (priv_data : Ptr) :
    switch_result × thread_state :=
  let c := w.contexts self
  match w.callee_at self with
  | .at_yield out next =>
      if c.status_ = status_t.EN_CRS_RUNNING.toInt then
        let jump_data : jump_src_data_t :=
          { from_co := this_coroutine.get_coroutine w, to_co := self, priv_data := priv_data }
        let w1 := w.push_registry self
        let w2 := coroutine_context_base.yield_return w1.context_switch out jump_data
        let back := coroutine_context_base.run_callee self (next .COPP_EC_SUCCESS w2.memory) w2
        (back.1, back.2.pop_registry)
      else (.failed .NotResumable, w)
  | _ => (.failed .NotResumable, w)

end detail

namespace this_coroutine

/-- Modelled from the spec: this_coroutine::yield, whose body is missing:
"resolve current, fail with NotRunning if empty, else delegate to that
context's yield". -/
def yield (w : detail.thread_state) (priv_data : Ptr) : detail.yield_outcome :=
  let pco := get_coroutine w
  if pco = UTIL_CONFIG_NULLPTR then .failed .NotRunning w
  else detail.coroutine_context_base.yield w pco priv_data

end this_coroutine

/-!
Concrete threads and runners

Small concrete states on which the operations are evaluated.
-/

namespace scenario

open detail

/-- A context in the given status, bound to the given runner, everything
else as constructed. -/
def context_in (status : status_t) (runner : Ptr) : coroutine_context_base :=
  { runner_ret_code_ := 0, runner_ := runner, priv_data_ := 0, status_ := status.toInt,
    caller_ := {}, callee_ := {}, callee_stack_ := {} }

/-- A thread outside any coroutine, with one context at address 1, in the
given status, bound to runner 100 and placed at the given callee point. -/
def thread_with (status : status_t) (at_point : callee_point) : thread_state :=
  { contexts := Function.update (fun _ => context_in .EN_CRS_INVALID 0) 1 (context_in status 100)
    callee_at := Function.update (fun _ => .not_built) 1 at_point
    registry := []
    memory := fun _ => 0
    context_switches := 0 }

/-- A runner that would change every field of the context and return 9. -/
def meddling_call : runner_call :=
  fun _ _ c => (9, { c with runner_ := 0, priv_data_ := 77, status_ := 3, runner_ret_code_ := 5 })

/-- A runner that leaves the context alone and returns the negative of the
address it is invoked with. -/
def negating_call : runner_call := fun _ p c => (-(p : Int), c)

/-- The rest of a runner that returns what it finds in slot 50. -/
def return_slot_50 : copp_error_code → (Ptr → Ptr) → runnable_body :=
  fun _ m => .returns (m 50)

/-- A runner that returns at once the payload it is invoked with. -/
def returning_runner : Ptr → Ptr → runnable_body := fun _ p => .returns p

end scenario

/-!
Properties of the members defined in the header
-/

namespace detail

open coroutine_context_base

/-- C1: when the runner is not null and returns `r` on the payload `p`,
`get_ret_code` after `run_and_recv_retcode p` is exactly `r`, for every
integer `r`, whatever else the runner did to the context. -/
theorem get_ret_code_after_run_and_recv_retcode (invoke : runner_call)
    (self : coroutine_context_base) (p : Ptr) (r : Int)
    (hrunner : self.runner_ ≠ UTIL_CONFIG_NULLPTR)
    (hreturns : (invoke self.runner_ p self).1 = r) :
    get_ret_code (run_and_recv_retcode invoke self p) = r := by
  have hne : ¬ UTIL_CONFIG_NULLPTR = self.runner_ := fun h => hrunner h.symm
  simp [run_and_recv_retcode, get_ret_code, hne, hreturns]

/-- Witness of C1: a runner returning a negative code, and one that also
rewrites the context, both surface verbatim. -/
theorem get_ret_code_after_run_and_recv_retcode_witness :
    get_ret_code (run_and_recv_retcode scenario.negating_call
      (scenario.context_in .EN_CRS_RUNNING 100) 7) = -7 ∧
    get_ret_code (run_and_recv_retcode scenario.meddling_call
      (scenario.context_in .EN_CRS_RUNNING 100) 7) = 9 :=
  ⟨get_ret_code_after_run_and_recv_retcode scenario.negating_call
      (scenario.context_in .EN_CRS_RUNNING 100) 7 (-7) (by decide) rfl,
   get_ret_code_after_run_and_recv_retcode scenario.meddling_call
      (scenario.context_in .EN_CRS_RUNNING 100) 7 9 (by decide) rfl⟩

/-- C7: `get_private_data` after `set_private_data p` returns `p`, for every
pointer including the null pointer, and after any sequence of calls of
`set_private_data` it returns the pointer of the last call. -/
theorem get_private_data_after_set_private_data (self : coroutine_context_base) (p : Ptr)
    (earlier : List Ptr) :
    get_private_data (set_private_data self p) = p ∧
    get_private_data (set_private_data self UTIL_CONFIG_NULLPTR) = UTIL_CONFIG_NULLPTR ∧
    get_private_data (set_private_data (earlier.foldl set_private_data self) p) = p ∧
    get_private_data ((earlier ++ [p]).foldl set_private_data self) = p := by
  refine ⟨rfl, rfl, rfl, ?_⟩
  rw [List.foldl_append]
  rfl

/-- C8: the status type has exactly five values, pairwise distinct, encoded
0, 1, 2, 3, 4 in the order INVALID, READY, RUNNING, FINISHED, EXITED, so the
stored integer strictly increases at every step of the lifecycle. -/
theorem status_t_encoding_follows_lifecycle :
    (∀ s : status_t, s ∈ status_t.enumerators) ∧
    status_t.enumerators.length = 5 ∧
    status_t.enumerators.Nodup ∧
    Function.Injective status_t.toInt ∧
    status_t.EN_CRS_INVALID.toInt = 0 ∧
    status_t.EN_CRS_READY.toInt = 1 ∧
    status_t.EN_CRS_RUNNING.toInt = 2 ∧
    status_t.EN_CRS_FINISHED.toInt = 3 ∧
    status_t.EN_CRS_EXITED.toInt = 4 ∧
    lifecycle.map status_t.toInt = [0, 1, 2, 3, 4] ∧
    List.Chain' (fun a b : Int => a < b) (lifecycle.map status_t.toInt) := by
  refine ⟨?_, rfl, by decide, ?_, rfl, rfl, rfl, rfl, rfl, rfl, ?_⟩
  · intro s
    cases s <;> decide
  · intro a b h
    cases a <;> cases b <;> first | rfl | (exact absurd h (by decide))
  · simp [lifecycle, status_t.toInt]

/-- C9: when the runner is null, `run_and_recv_retcode` leaves the context
as it was, whatever any runner would have done, so no runner was invoked and
`get_ret_code` returns what it returned before. -/
theorem run_and_recv_retcode_null_runner (invoke : runner_call)
    (self : coroutine_context_base) (p : Ptr)
    (hnull : self.runner_ = UTIL_CONFIG_NULLPTR) :
    run_and_recv_retcode invoke self p = self ∧
    get_ret_code (run_and_recv_retcode invoke self p) = get_ret_code self := by
  have h : run_and_recv_retcode invoke self p = self := by
    simp [run_and_recv_retcode, hnull]
  exact ⟨h, by rw [h]⟩

/-- Witness of C9: a context without runner stays as it is even under a
runner that would rewrite every field. -/
theorem run_and_recv_retcode_null_runner_witness :
    run_and_recv_retcode scenario.meddling_call (scenario.context_in .EN_CRS_RUNNING 0) 7
      = scenario.context_in .EN_CRS_RUNNING 0 ∧
    get_ret_code (run_and_recv_retcode scenario.meddling_call
      (scenario.context_in .EN_CRS_RUNNING 0) 7) = 0 :=
  run_and_recv_retcode_null_runner scenario.meddling_call
    (scenario.context_in .EN_CRS_RUNNING 0) 7 rfl

/-- C10: when the runner does not itself touch the context,
`run_and_recv_retcode` changes the stored return code only: the status, the
runner, the private data, the two machine contexts and the stack are as
before, and a status that was not FINISHED is not FINISHED afterwards. -/
theorem run_and_recv_retcode_frame (invoke : runner_call)
    (self : coroutine_context_base) (p : Ptr)
    (huntouched : (invoke self.runner_ p self).2 = self) :
    (run_and_recv_retcode invoke self p).status_ = self.status_ ∧
    get_runner (run_and_recv_retcode invoke self p) = get_runner self ∧
    get_private_data (run_and_recv_retcode invoke self p) = get_private_data self ∧
    (run_and_recv_retcode invoke self p).caller_ = self.caller_ ∧
    (run_and_recv_retcode invoke self p).callee_ = self.callee_ ∧
    (run_and_recv_retcode invoke self p).callee_stack_ = self.callee_stack_ ∧
    (self.status_ ≠ status_t.EN_CRS_FINISHED.toInt →
      (run_and_recv_retcode invoke self p).status_ ≠ status_t.EN_CRS_FINISHED.toInt) := by
  by_cases h : UTIL_CONFIG_NULLPTR = self.runner_
  · simp [run_and_recv_retcode, h]
  · simp [run_and_recv_retcode, get_runner, get_private_data, h, huntouched]

/-- Witness of C10: a runner that returns -7 on a RUNNING context. -/
theorem run_and_recv_retcode_frame_witness :
    (run_and_recv_retcode scenario.negating_call
      (scenario.context_in .EN_CRS_RUNNING 100) 7).status_ = status_t.EN_CRS_RUNNING.toInt ∧
    get_runner (run_and_recv_retcode scenario.negating_call
      (scenario.context_in .EN_CRS_RUNNING 100) 7) = 100 ∧
    get_private_data (run_and_recv_retcode scenario.negating_call
      (scenario.context_in .EN_CRS_RUNNING 100) 7) = 0 ∧
    get_ret_code (run_and_recv_retcode scenario.negating_call
      (scenario.context_in .EN_CRS_RUNNING 100) 7) = -7 :=
  have h := run_and_recv_retcode_frame scenario.negating_call
    (scenario.context_in .EN_CRS_RUNNING 100) 7 rfl
  ⟨h.1, h.2.1, h.2.2.1, rfl⟩

/-!
Properties of the lifecycle operations
-/

/-- The runner on the callee stack never writes a `void *` slot itself. -/
theorem run_callee_memory (self : Ptr) (body : runnable_body) (w : thread_state) :
    (run_callee self body w).2.memory = w.memory := by
  induction body generalizing w with
  | returns code =>
      simp [run_callee, finish, thread_state.set_context, thread_state.context_switch]
  | yields priv_data next ih =>
      unfold run_callee
      by_cases h : w.registry.head? = some self
      · simp [coroutine_context_base.yield, h, thread_state.context_switch]
      · simp [coroutine_context_base.yield, h, ih]

/-- The switch back from the callee never delivers an error kind. -/
theorem run_callee_not_failed (self : Ptr) (body : runnable_body) (w : thread_state)
    (ec : copp_error_code) :
    (run_callee self body w).1 ≠ switch_result.failed ec := by
  induction body generalizing w with
  | returns code =>
      simp [run_callee, finish]
  | yields priv_data next ih =>
      unfold run_callee
      by_cases h : w.registry.head? = some self
      · simp [coroutine_context_base.yield, h]
      · simp [coroutine_context_base.yield, h, ih]

/-- A runner that returns leaves its result in the return code of its
context. -/
theorem run_callee_returns_ret_code (self : Ptr) (code : Int) (w : thread_state) :
    get_ret_code ((run_callee self (.returns code) w).2.contexts self) = code := by
  simp [run_callee, finish, thread_state.set_context, thread_state.context_switch,
    get_ret_code]

/-- C2: `is_finished` returns true exactly when the status is
EN_CRS_FINISHED or EN_CRS_EXITED, hence false for EN_CRS_INVALID,
EN_CRS_READY and EN_CRS_RUNNING, and it leaves the context, its status
included, as it was. -/
theorem is_finished_iff_finished_or_exited (self : coroutine_context_base) :
    ((is_finished self).1 = true ↔
      (self.status_ = status_t.EN_CRS_FINISHED.toInt ∨
        self.status_ = status_t.EN_CRS_EXITED.toInt)) ∧
    ((self.status_ = status_t.EN_CRS_INVALID.toInt ∨
        self.status_ = status_t.EN_CRS_READY.toInt ∨
        self.status_ = status_t.EN_CRS_RUNNING.toInt) → (is_finished self).1 = false) ∧
    (is_finished self).2.status_ = self.status_ ∧
    (is_finished self).2 = self := by
  refine ⟨by simp [is_finished], ?_, rfl, rfl⟩
  intro h
  simp only [status_t.toInt] at h
  simp only [is_finished, status_t.toInt, decide_eq_false_iff_not]
  omega

/-- C3: `start` on a context whose status is not READY fails with NotReady
and leaves the whole thread state as it was: no context switch is counted,
and the status, the return code and the runner of the context are
unchanged. -/
theorem start_not_ready (runners : Ptr → Ptr → runnable_body) (w : thread_state)
    (self : Ptr) (priv_data : Ptr)
    (hstatus : (w.contexts self).status_ ≠ status_t.EN_CRS_READY.toInt) :
    (start runners w self priv_data).1 = switch_result.failed copp_error_code.NotReady ∧
    (start runners w self priv_data).2 = w ∧
    (start runners w self priv_data).2.context_switches = w.context_switches ∧
    ((start runners w self priv_data).2.contexts self).status_ = (w.contexts self).status_ ∧
    get_ret_code ((start runners w self priv_data).2.contexts self)
      = get_ret_code (w.contexts self) ∧
    get_runner ((start runners w self priv_data).2.contexts self)
      = get_runner (w.contexts self) := by
  have h : start runners w self priv_data
      = (switch_result.failed copp_error_code.NotReady, w) := by
    simp [start, compare_exchange_strong, hstatus]
  simp [h]

/-- Witness of C3: a second `start` on a context that is RUNNING, parked at
a yield point. -/
theorem start_not_ready_witness :
    (start scenario.returning_runner
      (scenario.thread_with .EN_CRS_RUNNING (.at_yield 50 scenario.return_slot_50)) 1 7).1
      = switch_result.failed copp_error_code.NotReady ∧
    (start scenario.returning_runner
      (scenario.thread_with .EN_CRS_RUNNING (.at_yield 50 scenario.return_slot_50)) 1 7).2
      = scenario.thread_with .EN_CRS_RUNNING (.at_yield 50 scenario.return_slot_50) :=
  have h := start_not_ready scenario.returning_runner
    (scenario.thread_with .EN_CRS_RUNNING (.at_yield 50 scenario.return_slot_50)) 1 7
    (by decide)
  ⟨h.1, h.2.1⟩

/-- C5: `resume(X)` on a RUNNING context parked inside `yield(out)` with
`out` not NULL does not fail and makes that `yield` return success in a state
whose slot `out` holds `X` (the other slots being as before), the runner goes
on from that state, the slot still holds `X` when `resume` returns, and a
runner that then returns a function of the slot returns that function of `X`.
Likewise `start(X)` on a READY context with a runner does not fail and
invokes the runner with `X`: the callee runs what the runner does on `X`, and
a runner returning a function of its argument returns that function of `X`. -/
theorem resume_and_start_deliver_payload :
    (∀ (w : thread_state) (self out : Ptr)
        (next : copp_error_code → (Ptr → Ptr) → runnable_body) (X : Ptr),
      (w.contexts self).status_ = status_t.EN_CRS_RUNNING.toInt →
      w.callee_at self = callee_point.at_yield out next →
      out ≠ UTIL_CONFIG_NULLPTR →
      (∃ s : thread_state,
        s.memory out = X ∧ (∀ a, a ≠ out → s.memory a = w.memory a) ∧
        resume w self X = ((run_callee self (next .COPP_EC_SUCCESS s.memory) s).1,
          (run_callee self (next .COPP_EC_SUCCESS s.memory) s).2.pop_registry)) ∧
      (∀ ec, (resume w self X).1 ≠ switch_result.failed ec) ∧
      (resume w self X).2.memory out = X ∧
      (∀ f : Ptr → Int, (∀ ec m, next ec m = runnable_body.returns (f (m out))) →
        get_ret_code ((resume w self X).2.contexts self) = f X)) ∧
    (∀ (runners : Ptr → Ptr → runnable_body) (w : thread_state) (self X : Ptr),
      (w.contexts self).status_ = status_t.EN_CRS_READY.toInt →
      (w.contexts self).runner_ ≠ UTIL_CONFIG_NULLPTR →
      (∃ s : thread_state,
        s.memory = w.memory ∧
        start runners w self X = ((run_callee self (runners (w.contexts self).runner_ X) s).1,
          (run_callee self (runners (w.contexts self).runner_ X) s).2.pop_registry)) ∧
      (∀ ec, (start runners w self X).1 ≠ switch_result.failed ec) ∧
      (∀ g : Ptr → Int, (∀ r p, runners r p = runnable_body.returns (g p)) →
        get_ret_code ((start runners w self X).2.contexts self) = g X)) := by
  constructor
  · intro w self out next X hstatus hat hout
    have hres : resume w self X =
        ((run_callee self (next .COPP_EC_SUCCESS (Function.update w.memory out X))
          { (w.push_registry self).context_switch with
            memory := Function.update w.memory out X }).1,
         (run_callee self (next .COPP_EC_SUCCESS (Function.update w.memory out X))
          { (w.push_registry self).context_switch with
            memory := Function.update w.memory out X }).2.pop_registry) := by
      simp [resume, hat, hstatus, yield_return, hout, thread_state.context_switch,
        thread_state.push_registry]
    refine ⟨⟨{ (w.push_registry self).context_switch with
        memory := Function.update w.memory out X }, ?_, ?_, hres⟩, ?_, ?_, ?_⟩
    · simp
    · intro a ha
      simp [Function.update_noteq ha]
    · intro ec
      rw [hres]
      exact run_callee_not_failed _ _ _ ec
    · rw [hres]
      simp [thread_state.pop_registry, run_callee_memory]
    · intro f hf
      rw [hres, hf]
      simp [thread_state.pop_registry, run_callee_returns_ret_code]
  · intro runners w self X hstatus hrunner
    have hne : ¬ UTIL_CONFIG_NULLPTR = (w.contexts self).runner_ := fun h => hrunner h.symm
    have hsta : start runners w self X =
        ((run_callee self (runners (w.contexts self).runner_ X)
          ((w.set_context self
            { w.contexts self with status_ := status_t.EN_CRS_RUNNING.toInt }).push_registry
              self).context_switch).1,
         (run_callee self (runners (w.contexts self).runner_ X)
          ((w.set_context self
            { w.contexts self with status_ := status_t.EN_CRS_RUNNING.toInt }).push_registry
              self).context_switch).2.pop_registry) := by
      simp [start, compare_exchange_strong, hstatus, coroutine_context_callback, hne,
        thread_state.set_context, thread_state.context_switch, thread_state.push_registry]
    refine ⟨⟨((w.set_context self
        { w.contexts self with status_ := status_t.EN_CRS_RUNNING.toInt }).push_registry
          self).context_switch, rfl, hsta⟩, ?_, ?_⟩
    · intro ec
      rw [hsta]
      exact run_callee_not_failed _ _ _ ec
    · intro g hg
      rw [hsta, hg]
      simp [thread_state.pop_registry, run_callee_returns_ret_code]

/-- Witness of C5: a runner parked inside `yield(50)` that returns what it
finds in slot 50 is resumed with 42 and returns 42; a runner that returns its
argument is started with 7 and returns 7. -/
theorem resume_and_start_deliver_payload_witness :
    (resume (scenario.thread_with .EN_CRS_RUNNING (.at_yield 50 scenario.return_slot_50))
      1 42).2.memory 50 = 42 ∧
    get_ret_code ((resume
      (scenario.thread_with .EN_CRS_RUNNING (.at_yield 50 scenario.return_slot_50))
      1 42).2.contexts 1) = 42 ∧
    get_ret_code ((start scenario.returning_runner
      (scenario.thread_with .EN_CRS_READY .at_entry) 1 7).2.contexts 1) = 7 :=
  have hresume := resume_and_start_deliver_payload.1
    (scenario.thread_with .EN_CRS_RUNNING (.at_yield 50 scenario.return_slot_50))
    1 50 scenario.return_slot_50 42 (by decide) rfl (by decide)
  have hstart := resume_and_start_deliver_payload.2 scenario.returning_runner
    (scenario.thread_with .EN_CRS_READY .at_entry) 1 7 (by decide) (by decide)
  ⟨hresume.2.2.1, hresume.2.2.2 (fun x => (x : Int)) (fun _ _ => rfl),
    hstart.2.2 (fun x => (x : Int)) (fun _ _ => rfl)⟩

end detail

namespace this_coroutine

open detail

/-- C4: when `get_coroutine` returns NULL, the free function `yield` fails
with NotRunning and leaves the thread state as it was: no context switch is
counted, and the registry and every context are unchanged. -/
theorem yield_outside_coroutine (w : thread_state) (priv_data : Ptr)
    (hnone : get_coroutine w = UTIL_CONFIG_NULLPTR) :
    yield w priv_data = yield_outcome.failed copp_error_code.NotRunning w ∧
    (yield w priv_data).state.context_switches = w.context_switches ∧
    (yield w priv_data).state.registry = w.registry ∧
    (yield w priv_data).state.contexts = w.contexts ∧
    (yield w priv_data).state.callee_at = w.callee_at := by
  have h : yield w priv_data = yield_outcome.failed copp_error_code.NotRunning w := by
    simp [yield, hnone]
  simp [h, yield_outcome.state]

/-- Witness of C4: `yield` on a thread whose registry is empty. -/
theorem yield_outside_coroutine_witness :
    get_coroutine (scenario.thread_with .EN_CRS_READY .at_entry) = UTIL_CONFIG_NULLPTR ∧
    yield (scenario.thread_with .EN_CRS_READY .at_entry) 50
      = yield_outcome.failed copp_error_code.NotRunning
          (scenario.thread_with .EN_CRS_READY .at_entry) :=
  ⟨rfl, (yield_outside_coroutine (scenario.thread_with .EN_CRS_READY .at_entry) 50 rfl).1⟩

end this_coroutine

end copp
